import Mathlib

/-!
Verification of the voice-flow global-hotkey and window-targeting core
(src/src-tauri/src/lib.rs), as a shallow embedding in Lean.

Modelling conventions:
* A platform hotkey token (`tauri_plugin_global_shortcut::Shortcut`) is an
  abstract `Nat`.  Parsing of shortcut strings and the OS's willingness to
  bind a token are external library / OS behaviour, so they are parameters
  of the model (`Env`).  The `unregister` call of the plugin is modelled as
  reliable removal of the token from the OS binding set, and `Mutex::lock`
  as always succeeding (single conceptual caller, no poisoning).
* Window handles are records of observable attributes (existence,
  visibility, focus, position).  Missing windows make every operation a
  no-op, as in the source (`if let Some(window) = app.get_webview_window ...`).
* Machine integers: monitor dimensions are `u32` values cast to `i32` in the
  source (`screen_size.width as i32`); the cast is modelled by `toI32` with
  explicit wrap-around, and Rust's truncating `/` on `i32` by `Int.tdiv`.
-/

namespace VoiceFlow

/-- Abstract platform hotkey token (the parsed `Shortcut`). -/
abbrev Token := Nat

/-- External behaviour the registry interacts with: the shortcut-string
parser of the global-shortcut plugin, and whether the OS accepts binding a
given token (`on_shortcut` succeeding).  Both are deterministic functions
of their input for the duration of a run. -/
structure Env where
  parse : String → Option Token
  osAccepts : Token → Bool

/-- Observable registry state: the `ShortcutState2(Mutex<Option<String>>)`
cell, and the set of hotkey tokens currently bound at the OS level. -/
structure RegState where
  current : Option String
  osActive : List Token
deriving DecidableEq, Repr

/-- Initial state: `ShortcutState2(Mutex::new(None))` and no OS binding. -/
def initState : RegState := ⟨none, []⟩

/-- OS-level `unregister` of a token: removes it from the binding set. -/
def unregisterTok (t : Token) (os : List Token) : List Token :=
  os.filter (fun u => u ≠ t)

/-- The unregister phase of `register_shortcut` (lib.rs lines 22–27): if a
previous shortcut string is stored and it parses, unregister its token
(ignoring the result); otherwise leave the OS bindings unchanged. -/
def unregister_old (env : Env) (st : RegState) : List Token :=
  match st.current with
  | some old =>
    match env.parse old with
    | some t => unregisterTok t st.osActive
    | none => st.osActive
  | none => st.osActive

/-- Embedding of the `register_shortcut` command (lib.rs lines 20–52).
The source first unregisters the old shortcut (if stored and parseable),
then stores the new string in the state cell, then parses the new string
(returning `Err` on failure), then registers it with `on_shortcut`
(returning `Err` if the OS refuses).  In every branch the state cell holds
the new string and the unregister phase has already happened, so each
branch carries `unregister_old env st` and `current := some shortcut_str`. -/
def register_shortcut (env : Env) (shortcut_str : String) (st : RegState) :
    RegState × Except String String :=
  match env.parse shortcut_str with
  | none =>
    (⟨some shortcut_str, unregister_old env st⟩,
      Except.error "Failed to parse shortcut")
  | some t =>
    if env.osAccepts t then
      (⟨some shortcut_str, t :: unregister_old env st⟩, Except.ok shortcut_str)
    else
      (⟨some shortcut_str, unregister_old env st⟩,
        Except.error "Failed to register shortcut")

/-- A finite sequence of `register_shortcut` calls, keeping only the state. -/
def runCalls (env : Env) (xs : List String) (st : RegState) : RegState :=
  xs.foldl (fun s x => (register_shortcut env x s).1) st

/-- Reachability invariant of the registry: either no token is bound at the
OS level, or exactly one is, and it is the parse of the stored string. -/
def RegInv (env : Env) (st : RegState) : Prop :=
  st.osActive = [] ∨
    ∃ t cur, st.osActive = [t] ∧ st.current = some cur ∧ env.parse cur = some t

/-! ### Event router (the `on_shortcut` closure, lib.rs lines 34–48) -/

/-- Which window an emission is addressed to. -/
inductive Target where
  | widget
  | main
deriving DecidableEq, Repr

/-- Press / release state of a fired hotkey event (`ShortcutState`). -/
inductive KeyState where
  | pressed
  | released
deriving DecidableEq, Repr

/-- Event name chosen by the closure (lib.rs lines 36–39). -/
def eventName : KeyState → String
  | KeyState.pressed => "shortcut-down"
  | KeyState.released => "shortcut-up"

/-- Existence and visibility of the two named windows at the moment a
hotkey event fires.  Visibility is carried to express that routing does
not consult it. -/
structure WinConfig where
  widgetExists : Bool
  widgetVisible : Bool
  mainExists : Bool
  mainVisible : Bool
deriving DecidableEq, Repr

/-- The `on_shortcut` closure (lib.rs lines 34–48): if the fired shortcut
equals the captured one, emit the event name to `"widget"` when it exists,
else to `"main"` when it exists, else nowhere.  The returned list is the
sequence of (target, event-name) emissions; emission failures are ignored
by the source (`let _ = widget.emit(...)`) and no error channel exists. -/
def onShortcutFire (registered fired : Token) (ks : KeyState)
    (w : WinConfig) : List (Target × String) :=
  if fired = registered then
    if w.widgetExists then [(Target.widget, eventName ks)]
    else if w.mainExists then [(Target.main, eventName ks)]
    else []
  else []

/-! ### Window handles and the open commands (lib.rs lines 54–82) -/

/-- Observable attributes of a named webview window.  `present` is whether
`app.get_webview_window(name)` finds it. -/
structure WebviewWindow where
  present : Bool
  visible : Bool
  focused : Bool
  pos : Option (Int × Int)
deriving DecidableEq, Repr

/-- Physical monitor size (`monitor.size()`, in physical pixels, `u32`). -/
structure Monitor where
  width : Nat
  height : Nat
deriving DecidableEq, Repr

/-- Rust's `as i32` cast of a `u32` value: wrap modulo 2^32 into
[-2^31, 2^31). -/
def toI32 (n : Nat) : Int :=
  if n % 2 ^ 32 < 2 ^ 31 then ((n % 2 ^ 32 : Nat) : Int)
  else ((n % 2 ^ 32 : Nat) : Int) - 2 ^ 32

/-- Widget position computed by `open_widget` (lib.rs lines 58–67):
width 200, height 40, bottom margin 25; Rust `/` on `i32` truncates toward
zero, which is `Int.tdiv`. -/
def widget_open_pos (screen : Monitor) : Int × Int :=
  ((toI32 screen.width - 200).tdiv 2, toI32 screen.height - 40 - 25)

/-- Widget position computed by the startup block in `run`
(lib.rs lines 132–143): same width/height, bottom margin 15. -/
def widget_startup_pos (screen : Monitor) : Int × Int :=
  ((toI32 screen.width - 200).tdiv 2, toI32 screen.height - 40 - 15)

/-- The `open_widget` command (lib.rs lines 54–74): no-op when the widget
window is absent; otherwise set its position when the current monitor is
known (`Ok(Some(monitor))`, modelled `some m`; `Err`/`Ok(None)` modelled
`none`), then show and focus it unconditionally. -/
def open_widget (monitor : Option Monitor) (w : WebviewWindow) :
    WebviewWindow :=
  if w.present then
    match monitor with
    | some m =>
      { w with pos := some (widget_open_pos m), visible := true, focused := true }
    | none => { w with visible := true, focused := true }
  else w

/-- The `open_main_window` command (lib.rs lines 76–82): no-op when the
main window is absent; otherwise show and focus it, never repositioning. -/
def open_main_window (w : WebviewWindow) : WebviewWindow :=
  if w.present then { w with visible := true, focused := true } else w

/-! ### Tray icon events (lib.rs lines 113–121) -/

/-- Mouse button of a tray icon click. -/
inductive TrayButton where
  | left
  | right
  | middle
deriving DecidableEq, Repr

/-- Press/release state of the tray click's button. -/
inductive TrayButtonState where
  | up
  | down
deriving DecidableEq, Repr

/-- Tray icon events delivered by the tray (`TrayIconEvent`). -/
inductive TrayIconEvt where
  | click (button : TrayButton) (buttonState : TrayButtonState)
  | doubleClick (button : TrayButton)
  | enter
  | move
  | leave
deriving DecidableEq, Repr

/-- The `on_tray_icon_event` handler (lib.rs lines 113–121): any `Click`
event, whatever its button or button state (`TrayIconEvent::Click { .. }`),
shows and focuses the main window when it exists; every other event, and a
click with the main window absent, is a no-op. -/
def on_tray_icon_event (e : TrayIconEvt) (main : WebviewWindow) :
    WebviewWindow :=
  match e with
  | TrayIconEvt.click _ _ =>
    if main.present then { main with visible := true, focused := true }
    else main
  | _ => main

/-! ### Exit requests and the tray menu (lib.rs lines 101–111 and 153–160) -/

/-- Process-level observable state for the exit-handling model. -/
structure SysState where
  alive : Bool
  mainExists : Bool
  mainVisible : Bool
  mainFocused : Bool
deriving DecidableEq, Repr

/-- The `RunEvent::ExitRequested` arm of the run handler (lib.rs lines
153–160): it always calls `api.prevent_exit()` — it never inspects the
exit code — and then hides `"main"` when it exists.  Returns whether
`prevent_exit` was called, paired with the updated state. -/
def on_exit_requested (s : SysState) : Bool × SysState :=
  (true, { s with mainVisible := if s.mainExists then false else s.mainVisible })

/-- Modelled from the Tauri v2 runtime (external framework): any exit
request — the last window closing (`code = none`) or `AppHandle::exit`
(`code = some c`) — raises `RunEvent::ExitRequested` to the run handler,
and the process terminates only if the handler does not call
`api.prevent_exit()`. -/
def requestExit (_code : Option Int) (s : SysState) : SysState :=
  let r := on_exit_requested s
  if r.1 then r.2 else { r.2 with alive := false }

/-- Identifiers of the tray menu items built in `setup` (lib.rs 93–95). -/
inductive MenuId where
  | quit
  | showMain
  | other
deriving DecidableEq, Repr

/-- The `on_menu_event` handler (lib.rs lines 101–111): `"quit"` calls
`app.exit(0)` — modelled as an exit request with code `some 0`, which the
Tauri runtime routes through the `ExitRequested` run handler; `"show"`
shows and focuses `"main"` when it exists; other ids do nothing. -/
def on_menu_event (id : MenuId) (s : SysState) : SysState :=
  match id with
  | MenuId.quit => requestExit (some 0) s
  | MenuId.showMain =>
    if s.mainExists then { s with mainVisible := true, mainFocused := true }
    else s
  | MenuId.other => s

/-! ### Concrete instances used by counterexamples and witnesses -/

/-- Concrete environment: `"Ctrl+A"` parses to token 0, `"Alt+Space"` to
token 1, everything else fails to parse; the OS accepts every binding. -/
def envA : Env where
  parse := fun s =>
    if s = "Ctrl+A" then some 0 else if s = "Alt+Space" then some 1 else none
  osAccepts := fun _ => true

/-- State after a successful registration of `"Ctrl+A"` from the initial
state: the cell holds the string and token 0 is bound. -/
def stA : RegState := (register_shortcut envA "Ctrl+A" initState).1

/-- A 1920 × 1080 monitor. -/
def mon0 : Monitor := ⟨1920, 1080⟩

/-- A present, hidden, unfocused, unpositioned window. -/
def wHidden : WebviewWindow := ⟨true, false, false, none⟩

/-! ### Registry invariant lemmas -/

theorem regInv_init (env : Env) : RegInv env initState :=
  Or.inl rfl

theorem unregister_old_of_inv (env : Env) (st : RegState) (h : RegInv env st) :
    unregister_old env st = [] := by
  rcases st with ⟨cur, os⟩
  rcases h with h | ⟨t, c, ho, hc, hp⟩
  · simp only at h
    subst h
    cases cur with
    | none => rfl
    | some old =>
      unfold unregister_old
      cases hpo : env.parse old <;> simp [hpo, unregisterTok]
  · simp only at ho hc
    subst ho; subst hc
    simp [unregister_old, hp, unregisterTok]

/-- On a state satisfying the invariant, `register_shortcut` reduces to a
simple case split on the parse and on OS acceptance. -/
theorem register_shortcut_of_inv (env : Env) (s : String) (st : RegState)
    (h : RegInv env st) :
    register_shortcut env s st =
      match env.parse s with
      | none => (⟨some s, []⟩, Except.error "Failed to parse shortcut")
      | some t =>
        if env.osAccepts t then (⟨some s, [t]⟩, Except.ok s)
        else (⟨some s, []⟩, Except.error "Failed to register shortcut") := by
  have hu := unregister_old_of_inv env st h
  unfold register_shortcut
  rw [hu]

theorem regInv_register (env : Env) (s : String) (st : RegState)
    (h : RegInv env st) : RegInv env (register_shortcut env s st).1 := by
  have hu := unregister_old_of_inv env st h
  cases hp : env.parse s with
  | none => exact Or.inl (by simp [register_shortcut, hp, hu])
  | some t =>
    by_cases ha : env.osAccepts t
    · exact Or.inr ⟨t, s, by simp [register_shortcut, hp, ha, hu], by
        simp [register_shortcut, hp, ha], hp⟩
    · exact Or.inl (by simp [register_shortcut, hp, ha, hu])

theorem regInv_runCalls (env : Env) (xs : List String) (st : RegState)
    (h : RegInv env st) : RegInv env (runCalls env xs st) := by
  induction xs generalizing st with
  | nil => exact h
  | cons x xs ih =>
    exact ih _ (regInv_register env x st h)

theorem stA_inv : RegInv envA stA :=
  Or.inr ⟨0, "Ctrl+A", by decide, by decide, by decide⟩

/-! ### Exit-handler lemmas -/

theorem requestExit_alive (c : Option Int) (s : SysState) :
    (requestExit c s).alive = s.alive := rfl

theorem requestExit_mainExists (c : Option Int) (s : SysState) :
    (requestExit c s).mainExists = s.mainExists := rfl

theorem requestExit_hides_main (c : Option Int) (s : SysState)
    (h : s.mainExists = true) : (requestExit c s).mainVisible = false := by
  simp [requestExit, on_exit_requested, h]

theorem requestExit_no_main (c : Option Int) (s : SysState)
    (h : s.mainExists = false) : requestExit c s = s := by
  cases s
  simp only at h
  subst h
  simp [requestExit, on_exit_requested]

/-! ### Claim C1 -/

/-- C1 fails as stated: with the binding for `"Ctrl+A"` (token 0) active,
registering the malformed string `"???"` returns a parse error but the
prior binding does NOT remain active — `register_shortcut` unregisters the
old shortcut before parsing the new string, leaving no OS binding at all. -/
theorem c1_counterexample :
    stA.osActive = [0] ∧
    (register_shortcut envA "???" stA).2 =
      Except.error "Failed to parse shortcut" ∧
    (register_shortcut envA "???" stA).1.osActive = [] :=
  ⟨by decide, rfl, by decide⟩

/-- C1 (amended): if `register_shortcut` is called, on a reachable registry
state, with a description string that fails to parse, it returns an error
and no new hotkey becomes active; however the prior binding (if any) has
already been unregistered before the parse, so afterwards no hotkey is
active at the OS level at all. -/
theorem c1_parse_failure_no_binding (env : Env) (st : RegState) (s : String)
    (hinv : RegInv env st) (hp : env.parse s = none) :
    (register_shortcut env s st).2 =
      Except.error "Failed to parse shortcut" ∧
    (register_shortcut env s st).1.osActive = [] := by
  have hu := unregister_old_of_inv env st hinv
  constructor
  · simp [register_shortcut, hp]
  · simp [register_shortcut, hp, hu]

/-- Witness for C1 (amended) at the concrete input `"???"` on the state
reached after registering `"Ctrl+A"`. -/
theorem c1_witness :
    (register_shortcut envA "???" stA).2 =
      Except.error "Failed to parse shortcut" ∧
    (register_shortcut envA "???" stA).1.osActive = [] :=
  c1_parse_failure_no_binding envA stA "???" stA_inv (by decide)

/-! ### Claim C2 -/

/-- C2: a fired hotkey event matching the active shortcut is delivered to
`"widget"` alone whenever `"widget"` exists (whatever the visibility of
either window); to `"main"` when only `"main"` exists; and dropped with no
delivery (and no error channel exists) when neither exists. -/
theorem c2_target_priority (registered fired : Token) (ks : KeyState)
    (w : WinConfig) (hm : fired = registered) :
    (w.widgetExists = true →
      onShortcutFire registered fired ks w = [(Target.widget, eventName ks)]) ∧
    (w.widgetExists = false → w.mainExists = true →
      onShortcutFire registered fired ks w = [(Target.main, eventName ks)]) ∧
    (w.widgetExists = false → w.mainExists = false →
      onShortcutFire registered fired ks w = []) := by
  subst hm
  refine ⟨fun hw => by simp [onShortcutFire, hw],
    fun hw hmn => by simp [onShortcutFire, hw, hmn],
    fun hw hmn => by simp [onShortcutFire, hw, hmn]⟩

/-- Witness for C2: with both windows existing (widget hidden), a matching
press event goes to the widget only. -/
theorem c2_witness :
    onShortcutFire 0 0 KeyState.pressed ⟨true, false, true, true⟩ =
      [(Target.widget, "shortcut-down")] :=
  (c2_target_priority 0 0 KeyState.pressed ⟨true, false, true, true⟩ rfl).1 rfl

/-! ### Claim C3 -/

/-- C3 fails as stated: in the sequence `["Ctrl+A", "???"]` the last call
with a valid description is the first one, and it succeeded (returning
`ok`), yet after the whole sequence its token 0 is not active — the second
(invalid) call unregistered it.  Only the at-most-one part survives. -/
theorem c3_counterexample :
    (register_shortcut envA "Ctrl+A" initState).2 = Except.ok "Ctrl+A" ∧
    envA.parse "Ctrl+A" = some 0 ∧
    envA.parse "???" = none ∧
    (runCalls envA ["Ctrl+A", "???"] initState).osActive = [] :=
  ⟨rfl, by decide, by decide, by decide⟩

/-- C3 (amended): after any finite sequence of `register_shortcut` calls
from the initial state, at most one token is bound at the OS level; and if
the final call of the sequence has a valid description whose token the OS
accepts, that call returns `ok` and exactly its token is active. -/
theorem c3_at_most_one_active (env : Env) (xs : List String) :
    (runCalls env xs initState).osActive.length ≤ 1 ∧
    (∀ s t, env.parse s = some t → env.osAccepts t = true →
      (register_shortcut env s (runCalls env xs initState)).2 =
        Except.ok s ∧
      (runCalls env (xs ++ [s]) initState).osActive = [t]) := by
  have hinv := regInv_runCalls env xs initState (regInv_init env)
  constructor
  · rcases hinv with h | ⟨t, c, ho, _, _⟩
    · simp [h]
    · simp [ho]
  · intro s t hp ha
    have hu := unregister_old_of_inv _ _ hinv
    have hrun : runCalls env (xs ++ [s]) initState =
        (register_shortcut env s (runCalls env xs initState)).1 := by
      simp [runCalls, List.foldl_append]
    constructor
    · simp [register_shortcut, hp, ha]
    · rw [hrun]
      simp [register_shortcut, hp, ha, hu]

/-- Witness for C3 (amended): after the sequence `["???"]` followed by a
final valid call `"Ctrl+A"`, exactly token 0 is active and the call
returned `ok`. -/
theorem c3_witness :
    (register_shortcut envA "Ctrl+A" (runCalls envA ["???"] initState)).2 =
      Except.ok "Ctrl+A" ∧
    (runCalls envA (["???"] ++ ["Ctrl+A"]) initState).osActive = [0] :=
  (c3_at_most_one_active envA ["???"]).2 "Ctrl+A" 0 (by decide) (by decide)

/-! ### Claim C4 -/

/-- C4: any number of exit/close requests (exit code `none`: no tray quit
involved) leaves the process alive; window existence is untouched; after at
least one request the main window is hidden when it exists; and when it
does not exist every request is a complete no-op. -/
theorem c4_exit_intercept (n : Nat) (s : SysState) (ha : s.alive = true) :
    ((requestExit none)^[n] s).alive = true ∧
    ((requestExit none)^[n] s).mainExists = s.mainExists ∧
    (0 < n → s.mainExists = true →
      ((requestExit none)^[n] s).mainVisible = false) ∧
    (s.mainExists = false → (requestExit none)^[n] s = s) := by
  induction n with
  | zero =>
    exact ⟨ha, rfl, fun h => absurd h (lt_irrefl 0), fun _ => rfl⟩
  | succ n ih =>
    obtain ⟨ih1, ih2, _, ih4⟩ := ih
    rw [Function.iterate_succ_apply']
    refine ⟨?_, ?_, ?_, ?_⟩
    · rw [requestExit_alive]; exact ih1
    · rw [requestExit_mainExists]; exact ih2
    · intro _ hme
      exact requestExit_hides_main none _ (ih2.trans hme)
    · intro hme
      rw [requestExit_no_main none _ (ih2.trans hme), ih4 hme]

/-- Witness for C4 at two consecutive close requests on a live process
with a visible main window. -/
theorem c4_witness :
    ((requestExit none)^[2] (⟨true, true, true, true⟩ : SysState)).alive =
      true ∧
    ((requestExit none)^[2]
      (⟨true, true, true, true⟩ : SysState)).mainVisible = false := by
  obtain ⟨h1, _, h3, _⟩ := c4_exit_intercept 2 ⟨true, true, true, true⟩ rfl
  exact ⟨h1, h3 (by decide) rfl⟩

/-! ### Claim C5 -/

/-- C5: evaluating the code at the failing input.  Selecting the tray menu
`"quit"` item while the process is running does not terminate it: the
handler calls `app.exit(0)`, which the Tauri runtime routes through
`RunEvent::ExitRequested`, and the run handler calls `api.prevent_exit()`
unconditionally (it never checks the exit code), so the process stays
alive and merely hides the main window. -/
theorem c5_quit_does_not_terminate :
    (on_menu_event MenuId.quit ⟨true, true, true, true⟩).alive = true ∧
    (on_menu_event MenuId.quit ⟨true, true, true, true⟩).mainVisible =
      false := by
  decide

/-! ### Claim C6 -/

/-- C6: `register_shortcut` is idempotent on reachable states — for every
string, calling it twice in succession produces exactly the same registry
state and the same returned value as calling it once. -/
theorem c6_register_idempotent (env : Env) (s : String) (st : RegState)
    (h : RegInv env st) :
    register_shortcut env s (register_shortcut env s st).1 =
      register_shortcut env s st := by
  rw [register_shortcut_of_inv env s st h]
  cases hp : env.parse s with
  | none =>
    simp only [hp]
    rw [register_shortcut_of_inv env s ⟨some s, []⟩ (Or.inl rfl), hp]
  | some t =>
    cases ha : env.osAccepts t with
    | true =>
      simp only [hp, ha, if_true]
      rw [register_shortcut_of_inv env s ⟨some s, [t]⟩
        (Or.inr ⟨t, s, rfl, rfl, hp⟩), hp]
      simp [ha]
    | false =>
      simp only [hp, ha, Bool.false_eq_true, if_false]
      rw [register_shortcut_of_inv env s ⟨some s, []⟩ (Or.inl rfl), hp]
      simp [ha]

/-- Witness for C6 at the concrete input `"Ctrl+A"` from the initial
state. -/
theorem c6_witness :
    register_shortcut envA "Ctrl+A"
        (register_shortcut envA "Ctrl+A" initState).1 =
      register_shortcut envA "Ctrl+A" initState :=
  c6_register_idempotent envA "Ctrl+A" initState (Or.inl rfl)

/-! ### Claim C7 -/

/-- C7: after any `register_shortcut` call the state cell holds exactly the
argument string — whether the call succeeded or failed (the cell is written
before the parse/registration is attempted) — and a successful call echoes
exactly the argument string. -/
theorem c7_store_before_register_and_echo (env : Env) (s : String)
    (st : RegState) :
    (register_shortcut env s st).1.current = some s ∧
    (∀ r, (register_shortcut env s st).2 = Except.ok r → r = s) := by
  cases hp : env.parse s with
  | none =>
    refine ⟨by simp [register_shortcut, hp], ?_⟩
    intro r hr
    simp [register_shortcut, hp] at hr
  | some t =>
    cases ha : env.osAccepts t with
    | true =>
      refine ⟨by simp [register_shortcut, hp, ha], ?_⟩
      intro r hr
      simp [register_shortcut, hp, ha] at hr
      exact hr.symm
    | false =>
      refine ⟨by simp [register_shortcut, hp, ha], ?_⟩
      intro r hr
      simp [register_shortcut, hp, ha] at hr

/-- Witness for C7 at the concrete input `"Ctrl+A"` from the initial
state (a successful call). -/
theorem c7_witness :
    (register_shortcut envA "Ctrl+A" initState).1.current =
      some "Ctrl+A" ∧
    "Ctrl+A" = "Ctrl+A" :=
  ⟨(c7_store_before_register_and_echo envA "Ctrl+A" initState).1,
    (c7_store_before_register_and_echo envA "Ctrl+A" initState).2
      "Ctrl+A" rfl⟩

/-! ### Claim C8 -/

/-- C8: `open` semantics.  A missing window makes either open command a
no-op (and no error channel exists); an existing `"widget"` gets the
computed position (horizontally centered via `(width - 200) / 2`, a fixed
offset `height - 40 - 25` from the bottom, constants 200/40/25) applied and
is then shown and focused (shown and focused even when no monitor is
known); an existing `"main"` is shown and focused with its position left
untouched. -/
theorem c8_open_windows (monitor : Monitor) (mo : Option Monitor)
    (w m : WebviewWindow) :
    (w.present = false → open_widget mo w = w) ∧
    (m.present = false → open_main_window m = m) ∧
    (w.present = true →
      open_widget (some monitor) w =
        { w with
            pos := some ((toI32 monitor.width - 200).tdiv 2,
              toI32 monitor.height - 40 - 25),
            visible := true, focused := true }) ∧
    (w.present = true →
      (open_widget mo w).visible = true ∧ (open_widget mo w).focused = true) ∧
    (m.present = true →
      open_main_window m = { m with visible := true, focused := true }) := by
  refine ⟨fun hw => by simp [open_widget, hw],
    fun hm => by simp [open_main_window, hm],
    fun hw => by simp [open_widget, hw, widget_open_pos],
    fun hw => by cases mo <;> simp [open_widget, hw],
    fun hm => by simp [open_main_window, hm]⟩

/-- Witness for C8: opening a present, hidden widget on a 1920 × 1080
monitor positions it at (860, 1015), shows it and focuses it. -/
theorem c8_witness :
    open_widget (some mon0) wHidden = ⟨true, true, true, some (860, 1015)⟩ := by
  have h := (c8_open_windows mon0 (some mon0) wHidden wHidden).2.2.1 rfl
  rw [h]
  decide

/-! ### Claim C9 -/

/-- C9: the startup placement (margin 15) and the `open_widget` placement
(margin 25) agree on the x-coordinate `(width - 200) / 2` and on the
200 × 40 constants, but `open_widget` places the widget 10 physical pixels
higher (smaller y) than the startup block does, on the same monitor. -/
theorem c9_startup_vs_open_offset (m : Monitor) :
    (widget_open_pos m).1 = (toI32 m.width - 200).tdiv 2 ∧
    (widget_open_pos m).1 = (widget_startup_pos m).1 ∧
    (widget_startup_pos m).2 = toI32 m.height - 40 - 15 ∧
    (widget_open_pos m).2 = toI32 m.height - 40 - 25 ∧
    (widget_open_pos m).2 = (widget_startup_pos m).2 - 10 := by
  refine ⟨rfl, rfl, rfl, rfl, ?_⟩
  simp only [widget_open_pos, widget_startup_pos]
  omega

/-! ### Claim C10 -/

/-- C10: every tray icon `Click` event — any mouse button, any button
state — shows and focuses the main window when it exists, and is a no-op
when it does not. -/
theorem c10_tray_click_shows_main (b : TrayButton) (bs : TrayButtonState)
    (main : WebviewWindow) :
    (main.present = true →
      on_tray_icon_event (TrayIconEvt.click b bs) main =
        { main with visible := true, focused := true }) ∧
    (main.present = false →
      on_tray_icon_event (TrayIconEvt.click b bs) main = main) := by
  refine ⟨fun h => by simp [on_tray_icon_event, h],
    fun h => by simp [on_tray_icon_event, h]⟩

/-- Witness for C10: a right-button down click on the tray icon shows and
focuses the hidden main window. -/
theorem c10_witness :
    on_tray_icon_event
        (TrayIconEvt.click TrayButton.right TrayButtonState.down) wHidden =
      ⟨true, true, true, none⟩ := by
  have h := (c10_tray_click_shows_main TrayButton.right TrayButtonState.down
    wHidden).1 rfl
  rw [h]
  decide

end VoiceFlow

